import Mathlib

/-
Shallow embedding of the goNEON demo web front end (Next.js/React/AI-SDK),
covering the pieces of the code base that the specification's claims are
about:

  * the `transform_network` tool of `src/app/api/chat/route.ts`;
  * the map-name resolution of `src/app/api/network-data/route.ts`;
  * the feature colour choice of `src/components/maps/network-overlay.tsx`
    (the variant actually imported by `google-map-3d`) and of the unused
    variant of the same component found in the repository;
  * the map-state synchronizer effect of `src/components/chat/chat-interface.tsx`;
  * the `design_parking` tool (input validation via its zod schema, backend
    call and error handling) of `src/app/api/chat/route.ts`;
  * the lane analysis `analyzeNetwork` of `src/app/api/chat/route.ts`;
  * the GeoJSON session cache and its sweep (`geojson-cache`) together with
    the cached-fetch endpoint (`geojson-data`).

JavaScript truthiness of optional strings / numbers is modelled explicitly
(`jsStr`, `jsNum`): `undefined` is `none`, and the empty string / the number
0 count as falsy exactly as `||` and `&&` treat them in the source.
-/

namespace Goneon

/-- JavaScript truthiness filter for an optional string: `undefined` and the
empty string are falsy, every other string is kept. -/
def jsStr (o : Option String) : Option String :=
  match o with
  | none => none
  | some s => if s = "" then none else some s

/-- JavaScript `a || b` on optional strings (falsy = absent or empty). -/
def jsOrStr (a b : Option String) : Option String :=
  match jsStr a with
  | some s => some s
  | none => jsStr b

/-- JavaScript truthiness filter for an optional number: `undefined` and 0
are falsy. -/
def jsNum (o : Option ℚ) : Option ℚ :=
  match o with
  | none => none
  | some q => if q = 0 then none else some q

/-- JavaScript `a || b` where `a` is an optional number and `b` a number. -/
def jsOrNum (a : Option ℚ) (b : ℚ) : ℚ :=
  match jsNum a with
  | some q => q
  | none => b

/-! ### transform_network (src/app/api/chat/route.ts, lines 250-283) -/

/-- The `lane_types` record returned by the network tools. -/
structure LaneTypes where
  motor : Nat
  bicycle : Nat
  green : Nat
deriving DecidableEq, Repr

/-- The closed input enum of `transform_network` (zod enum). -/
inductive TransformationType where
  | cycling_corridor
  | all_superblocks
deriving DecidableEq, Repr

/-- Result object returned by the `transform_network` tool's `execute`. -/
structure TransformResult where
  status : String
  action : String
  map : String
  lane_types : LaneTypes
  message : String
  total_lanes : Nat
deriving DecidableEq, Repr

/-- The canned `transformations` table of `transform_network`:
map name, lane counts and message per transformation type. -/
def transformations (t : TransformationType) : String × LaneTypes × String :=
  match t with
  | .cycling_corridor =>
      ("cycling_corridor", ⟨2940, 74, 43⟩,
       "Success! I\x27ve added a cycling corridor with 74 bicycle lanes and 43 green spaces. Ready to explore the changes?")
  | .all_superblocks =>
      ("all_superblocks", ⟨2802, 152, 183⟩,
       "Done! Your network now has 152 bicycle lanes and 183 green spaces across the city. Ready to explore?")

/-- The `transform_network` tool: spreads the canned table entry and computes
`total_lanes` as `3030 + bicycle + green` (the `|| 0` guards of the source
are identities on `Nat`). -/
def transform_network (transformation_type : TransformationType) : TransformResult :=
  let result := transformations transformation_type
  { status := "success"
    action := "transform"
    map := result.1
    lane_types := result.2.1
    message := result.2.2
    total_lanes := 3030 + result.2.1.bicycle + result.2.1.green }

/-! ### network-data map-name resolution (src/app/api/network-data/route.ts) -/

/-- The `mapFiles` lookup table of the network-data route. -/
def mapFiles (name : String) : Option String :=
  if name = "initial_network" then some "Maps/initial_network.geojson"
  else if name = "one_superblock" then some "Maps/one_superblock.geojson"
  else if name = "cycling_corridor" then some "Maps/cycling_corridor.geojson"
  else if name = "all_superblocks" then some "Maps/all_superblocks.geojson"
  else if name = "zürich/curbs" then some "zürich/curbs.geojson"
  else if name = "zürich/parking_spots" then some "zürich/parking_spots.geojson"
  else if name = "zürich/remaining_roadway_width" then some "zürich/remaining_roadway_width.geojson"
  else none

/-- Filename resolution of the network-data GET handler:
`dataType === 'streets' ? 'streets.geojson' : (mapFiles[mapName] || mapFiles['zürich/curbs'])`. -/
def networkDataFilename (dataType mapName : String) : Option String :=
  if dataType = "streets" then some "streets.geojson"
  else match mapFiles mapName with
    | some f => some f
    | none => mapFiles "zürich/curbs"

/-! ### Feature colour choice (src/components/maps/network-overlay.tsx) -/

/-- Feature properties relevant to rendering and analysis (the optional
fields of the `LaneFeature` interface). -/
structure LaneProperties where
  width : Option ℚ := none
  street_id : Option String := none
  lane_type_code : Option String := none
  color : Option String := none
  feature_type : Option String := none
  object_type : Option String := none
  fill_opacity : Option ℚ := none
  stroke_width : Option ℚ := none
  stroke_color : Option String := none
  marker_size : Option ℚ := none
deriving DecidableEq, Repr

/-- `LANE_COLORS` table of network-overlay.tsx. -/
def LANE_COLORS (code : String) : Option String :=
  if code = "M" then some "#4B5563"
  else if code = "T" then some "#EF4444"
  else if code = "L" then some "#8B1F2E"
  else if code = "G" then some "#1E5631"
  else if code = "R" then some "#00F0FF"
  else none

/-- `OBJECT_TYPE_COLORS` table of network-overlay.tsx. -/
def OBJECT_TYPE_COLORS (t : String) : Option String :=
  if t = "parking_spot" then some "#00F0FF"
  else if t = "curb" then some "#FFFFFF"
  else if t = "roadway" then some "#FFA500"
  else none

/-- JavaScript `key && table[key]`: falsy key short-circuits, otherwise the
lookup (which may itself be `undefined`). -/
def andLookup (key : Option String) (table : String → Option String) : Option String :=
  match jsStr key with
  | none => none
  | some k => table k

/-- Colour choice of network-overlay.tsx (lines 68-72):
`color || (object_type && OBJECT_TYPE_COLORS[object_type]) ||
 (lane_type_code && LANE_COLORS[lane_type_code]) || '#6B7280'`. -/
def chooseColor (props : LaneProperties) : String :=
  (jsOrStr props.color
    (jsOrStr (andLookup props.object_type OBJECT_TYPE_COLORS)
      (andLookup props.lane_type_code LANE_COLORS))).getD "#6B7280"

/-- `OBJECT_TYPE_COLORS` table of the unused NetworkOverlay variant
(src/unnamed/part_004). -/
def OBJECT_TYPE_COLORS_v2 (t : String) : Option String :=
  if t = "parking_spot" then some "#00FFFF"
  else if t = "curb" then some "#FFFFFF"
  else if t = "roadway" then some "#FFA500"
  else if t = "remaining_width" then some "#FF8C00"
  else none

/-- Colour choice of the unused NetworkOverlay variant (src/unnamed/part_004,
lines 95-111): Polygon/LineString features with `object_type = parking_spot`
get hardcoded colours, every other feature uses the standard priority chain. -/
def chooseColorV2 (geometryType : String) (props : LaneProperties) : String :=
  if geometryType = "Polygon" ∧ props.object_type = some "parking_spot" then "#00FFFF"
  else if geometryType = "LineString" ∧ props.object_type = some "parking_spot" then "#FF8C00"
  else
    (jsOrStr props.color
      (jsOrStr (andLookup props.object_type OBJECT_TYPE_COLORS_v2)
        (andLookup props.lane_type_code LANE_COLORS))).getD "#6B7280"

/-! ### GeoJSON features (shared data model) -/

/-- GeoJSON coordinates as a rose tree of numbers: a `Point` holds a flat
array, a `LineString` an array of arrays, a `Polygon` an array of rings.
Dynamic indexing (`coords[0]`) and the JS `.length` access are modelled on
this tree. -/
inductive Coord where
  | num (q : ℚ)
  | arr (cs : List Coord)

/-- JS `c[i]`: indexing an array yields its element, indexing a number is
`undefined`. -/
def coordIndex (c : Coord) (i : Nat) : Option Coord :=
  match c with
  | .arr l => l.get? i
  | .num _ => none

/-- Geometry of a feature: the `type` tag and the raw coordinates. -/
structure Geometry where
  type : String
  coordinates : Coord

/-- One GeoJSON feature as the code reads it. -/
structure Feature where
  properties : LaneProperties
  geometry : Geometry

/-- A named feature collection. -/
structure FeatureCollection where
  features : List Feature

/-! ### Map State synchronizer (src/components/chat/chat-interface.tsx) -/

/-- Map State descriptor: base network plus overlay names. -/
structure MapState where
  baseNetwork : String
  overlays : List String
deriving DecidableEq, Repr

/-- Camera descriptor carried by `jump_to_location` results. -/
structure Camera where
  lat : ℚ
  lng : ℚ
  range : ℚ
  heading : ℚ
  tilt : ℚ
  roll : ℚ
deriving DecidableEq, Repr

/-- The payload of a tool result as the synchronizer inspects it. -/
structure ToolOutput where
  action : String
  mapState : Option MapState := none
  map : Option String := none
  camera : Option Camera := none
  redirect_url : Option String := none
deriving DecidableEq, Repr

/-- One streamed tool part: its `type` tag (e.g. `"tool-transform_network"`),
its state and its (possibly absent) output. -/
structure ToolPart where
  ttype : String
  state : String
  output : Option ToolOutput
deriving DecidableEq, Repr

/-- A message part is either text or a tool part. -/
inductive MessagePart where
  | text (s : String)
  | tool (tp : ToolPart)
deriving DecidableEq, Repr

/-- One streamed chat message. -/
structure ChatMessage where
  id : String
  parts : List MessagePart
deriving DecidableEq, Repr

/-- The argument handed to `onMapChange`: either a MapState object or a
legacy bare map name. -/
inductive MapChangeArg where
  | state (ms : MapState)
  | legacy (name : String)
deriving DecidableEq, Repr

/-- An observable application performed by the synchronizer effect. -/
inductive SyncEffect where
  | mapChange (a : MapChangeArg)
  | cameraUpdate (c : Camera)
  | redirect (url : String)
deriving DecidableEq, Repr

/-- Synchronizer state: the `processedToolOutputs` seen-set and the ordered
list of applications performed so far.  The `onMapChange` / `onCameraUpdate`
subscribers are taken as present (the page always passes them). -/
structure SyncState where
  processed : List String
  effects : List SyncEffect
deriving DecidableEq, Repr

/-- The seen-set key: `` `${message.id}-${toolPart.type}` ``. -/
def toolOutputId (messageId : String) (tp : ToolPart) : String :=
  messageId ++ "-" ++ tp.ttype

/-- The applications one processed output performs, in source order:
`mapState` (new format) else truthy `map` (legacy), then the camera when the
action is `jump_to_location`, then a truthy `redirect_url`. -/
def outputEffects (out : ToolOutput) : List SyncEffect :=
  (match out.mapState with
   | some ms => [SyncEffect.mapChange (.state ms)]
   | none =>
     match jsStr out.map with
     | some m => [SyncEffect.mapChange (.legacy m)]
     | none => []) ++
  (if out.action = "jump_to_location" then
     match out.camera with
     | some c => [SyncEffect.cameraUpdate c]
     | none => []
   else []) ++
  (match jsStr out.redirect_url with
   | some u => [SyncEffect.redirect u]
   | none => [])

/-- Processing of one tool part: apply its output once and remember the
`(messageId, toolType)` key; a key already seen, a missing output or a state
other than `output-available` leaves the state unchanged. -/
def processToolPart (messageId : String) (s : SyncState) (tp : ToolPart) : SyncState :=
  match tp.output with
  | some out =>
      if tp.state = "output-available" ∧ toolOutputId messageId tp ∉ s.processed then
        { processed := toolOutputId messageId tp :: s.processed
          effects := s.effects ++ outputEffects out }
      else s
  | none => s

/-- `String.prototype.startsWith`, stated over the character lists so that
it evaluates inside the kernel. -/
def strStartsWith (s pre : String) : Bool :=
  pre.data.isPrefixOf s.data

/-- The `parts.filter(part => part.type?.startsWith('tool-'))` step. -/
def toolPartsOf (m : ChatMessage) : List ToolPart :=
  m.parts.filterMap (fun p =>
    match p with
    | .tool tp => if strStartsWith tp.ttype "tool-" then some tp else none
    | .text _ => none)

/-- Processing of one message: its tool parts in declaration order. -/
def processMessage (s : SyncState) (m : ChatMessage) : SyncState :=
  (toolPartsOf m).foldl (processToolPart m.id) s

/-- Processing of the whole streamed message list (one effect run). -/
def processMessages (s : SyncState) (ms : List ChatMessage) : SyncState :=
  ms.foldl processMessage s

/-! ### design_parking (src/app/api/chat/route.ts, lines 529-661) -/

/-- One rule posted to the external design backend.  The source field name
`attribute` is a Lean keyword, hence `attribute_name`. -/
structure DesignRule where
  ontology : String
  attribute_name : String
  value_min : ℚ
  value_max : ℚ
deriving DecidableEq, Repr

/-- The request body of the backend `/design` call. -/
structure DesignRequest where
  rules : List DesignRule
deriving DecidableEq, Repr

/-- The three optional feature collections the backend returns. -/
structure BackendData where
  parking_spots : Option FeatureCollection := none
  safety_margins : Option FeatureCollection := none
  remaining_roadway_widths : Option FeatureCollection := none

/-- Outcome of the backend call: a parsed 2xx response, a non-2xx response
(`!response.ok`, carrying the HTTP status), or a thrown network error. -/
inductive BackendResponse where
  | ok (data : BackendData)
  | httpError (status : Nat)
  | networkError (msg : String)

/-- Result object of the `design_parking` tool (the fields the claims are
about; the persisted feature collections are modelled by the request/response
pair, file writes are not observable in the result). -/
structure DesignParkingResult where
  status : String
  action : String
  parking_spot_width : Option ℚ := none
  dooring_margin : Option ℚ := none
  parking_spots_count : Option Nat := none
  remaining_widths_count : Option Nat := none
  mapState : Option MapState := none
  message : String
deriving DecidableEq, Repr

/-- The rules array built by `design_parking` from truthy parameters. -/
def designParkingRules (parking_spot_width dooring_margin : Option ℚ) : List DesignRule :=
  (match jsNum parking_spot_width with
   | some w => [⟨"ParkingSpot", "parking_spot_width", w, w⟩]
   | none => []) ++
  (match jsNum dooring_margin with
   | some m => [⟨"ParkingSpot", "dooring_margin", m, m⟩]
   | none => [])

/-- The catch-branch result of `design_parking`. -/
def designParkingError (backendUrl errMsg : String) : DesignParkingResult :=
  { status := "error"
    action := "design_parking"
    message := "Failed to connect to goNEON backend: " ++ errMsg ++
      ". Make sure the backend server is running on " ++ backendUrl }

/-- The `execute` body of `design_parking`: builds the rules, performs the
single backend call and either returns the success result or falls into the
catch branch.  The second component records every request actually sent to
the backend. -/
def executeDesignParking (backendUrl : String) (backend : DesignRequest → BackendResponse)
    (parking_spot_width dooring_margin : Option ℚ) :
    DesignParkingResult × List DesignRequest :=
  let req : DesignRequest := ⟨designParkingRules parking_spot_width dooring_margin⟩
  match backend req with
  | .ok data =>
      let parkingSpotsCount := ((data.parking_spots.map (·.features.length)).getD 0)
      let remainingWidthsCount := ((data.remaining_roadway_widths.map (·.features.length)).getD 0)
      ({ status := "success"
         action := "design_parking"
         parking_spot_width := some (jsOrNum parking_spot_width 2)
         dooring_margin := some (jsOrNum dooring_margin (3/2))
         parking_spots_count := some parkingSpotsCount
         remaining_widths_count := some remainingWidthsCount
         mapState := some ⟨"zürich/curbs", ["zürich/parking_spots", "zürich/remaining_roadway_width"]⟩
         message := "Parking design updated: " ++ toString parkingSpotsCount ++
           " spots with " ++ toString (jsOrNum parking_spot_width 2) ++ "m width and " ++
           toString (jsOrNum dooring_margin (3/2)) ++ "m safety margin." },
       [req])
  | .httpError status =>
      (designParkingError backendUrl ("Backend API returned " ++ toString status), [req])
  | .networkError msg =>
      (designParkingError backendUrl msg, [req])

/-- The zod input schema of `design_parking`:
`parking_spot_width` optional in [2.0, 4.0], `dooring_margin` optional in
[0.5, 2.0].  The AI SDK validates tool input against this schema before it
runs `execute`. -/
def validDesignParkingInput (parking_spot_width dooring_margin : Option ℚ) : Bool :=
  (match parking_spot_width with
   | none => true
   | some w => decide (2 ≤ w ∧ w ≤ 4)) &&
  (match dooring_margin with
   | none => true
   | some m => decide (1/2 ≤ m ∧ m ≤ 2))

/-- One tool invocation as the server performs it: schema validation first;
only a valid input reaches `execute` (and hence the backend).  `none` as
first component means the invocation was rejected at the schema. -/
def invokeDesignParking (backendUrl : String) (backend : DesignRequest → BackendResponse)
    (parking_spot_width dooring_margin : Option ℚ) :
    Option DesignParkingResult × List DesignRequest :=
  if validDesignParkingInput parking_spot_width dooring_margin then
    let r := executeDesignParking backendUrl backend parking_spot_width dooring_margin
    (some r.1, r.2)
  else
    (none, [])

/-! ### Lane analysis (src/app/api/chat/route.ts, analyzeNetwork, lanes path) -/

/-- The `laneTypeNames` table. -/
def laneTypeNames (code : String) : Option String :=
  if code = "M" then some "Motor"
  else if code = "L" then some "Bicycle"
  else if code = "G" then some "Green"
  else if code = "T" then some "Transit"
  else if code = "R" then some "Parking"
  else none

/-- One `{width, streetId}` entry pushed into `lanesByType`. -/
structure LaneEntry where
  width : ℚ
  streetId : Option String

/-- One `{lng, lat}` sample pushed into `sampleCoords`. -/
structure SampleLoc where
  lng : Coord
  lat : Coord

/-- Accumulated data of one lane-type bucket. -/
structure GroupAcc where
  lanes : List LaneEntry
  streets : List (Option String)
  samples : List SampleLoc

/-- The sample coordinate extracted from one feature: `coordinates[0][0]` for
a Polygon, `coordinates[0]` otherwise, kept only when it is an array of
length at least 2 (a number has no `.length`, so it is dropped exactly as the
`coords && coords.length >= 2` guard drops it). -/
def sampleCoordOf (g : Geometry) : Option SampleLoc :=
  let coords := if g.type = "Polygon"
    then (coordIndex g.coordinates 0).bind (fun c => coordIndex c 0)
    else coordIndex g.coordinates 0
  match coords with
  | some (Coord.arr l) =>
      if l.length ≥ 2 then
        match l.get? 0, l.get? 1 with
        | some lng, some lat => some ⟨lng, lat⟩
        | _, _ => none
      else none
  | _ => none

/-- Push one feature's data into its bucket (lane entry, street-id set with
insertion order, at most 5 samples). -/
def updateGroup (g : GroupAcc) (width : ℚ) (streetId : Option String)
    (sample : Option SampleLoc) : GroupAcc :=
  { lanes := g.lanes ++ [⟨width, streetId⟩]
    streets := if streetId ∈ g.streets then g.streets else g.streets ++ [streetId]
    samples :=
      if g.samples.length < 5 then
        match sample with
        | some s => g.samples ++ [s]
        | none => g.samples
      else g.samples }

/-- Ordered association update: the bucket keeps its first-occurrence
position, a new key is appended (JS object insertion order).  The key is the
raw `lane_type_code`; a missing code gets its own bucket (in JS it is the
string key `"undefined"`; a feature whose code is literally the string
`"undefined"` would share that bucket, a corner no claim depends on). -/
def updateAssoc (groups : List (Option String × GroupAcc)) (key : Option String)
    (upd : GroupAcc → GroupAcc) : List (Option String × GroupAcc) :=
  match groups with
  | [] => [(key, upd ⟨[], [], []⟩)]
  | (k, g) :: rest =>
      if k = key then (k, upd g) :: rest
      else (k, g) :: updateAssoc rest key upd

/-- The body of the `forEach` over features: the filter guard
(`laneTypeFilter && laneType !== laneTypeFilter`) drops the feature, an
accepted feature is pushed into its bucket with `width || 3.5`. -/
def analyzeStep (laneTypeFilter : Option String)
    (groups : List (Option String × GroupAcc)) (f : Feature) :
    List (Option String × GroupAcc) :=
  let laneType := f.properties.lane_type_code
  if (jsStr laneTypeFilter).isSome ∧ laneType ≠ jsStr laneTypeFilter then groups
  else
    updateAssoc groups laneType
      (fun g => updateGroup g (jsOrNum f.properties.width (7/2))
        f.properties.street_id (sampleCoordOf f.geometry))

/-- `toFixed(2)` followed by `parseFloat`, as exact rounding to two decimal
places (the IEEE-754 artefacts of `toFixed` are not modelled; no claim
depends on this value). -/
def roundTo2 (q : ℚ) : ℚ := (round (q * 100) : ℤ) / 100

/-- Per-bucket statistics record. -/
structure LaneGroupStat where
  lane_type : String
  count : Nat
  unique_streets : Nat
  approx_length_km : ℚ
  sample_locations : List SampleLoc

/-- The JS string form of a bucket key (`undefined` stringifies). -/
def keyString (k : Option String) : String := k.getD "undefined"

/-- Statistics of one bucket: `lane_type` via `laneTypeNames[code] || code`,
count, unique street count and the width-sum length proxy. -/
def groupStat (k : Option String) (g : GroupAcc) : LaneGroupStat :=
  let totalWidth := (g.lanes.map (·.width)).sum
  { lane_type := (jsOrStr (laneTypeNames (keyString k)) (some (keyString k))).getD ""
    count := g.lanes.length
    unique_streets := g.streets.length
    approx_length_km := roundTo2 (totalWidth / 1000)
    sample_locations := g.samples }

/-- The lanes-analysis result object. -/
structure LanesAnalysis where
  analysis_type : String
  map_name : String
  total_lanes : Nat
  lane_statistics : List (Option String × LaneGroupStat)
  message : String

/-- The lanes path of `analyzeNetwork` on an already-loaded feature list. -/
def analyzeNetworkLanes (mapName : String) (features : List Feature)
    (laneTypeFilter : Option String) : LanesAnalysis :=
  let groups := features.foldl (analyzeStep laneTypeFilter) []
  let totalLanes := (groups.map (fun kg => kg.2.lanes.length)).sum
  { analysis_type := "lanes"
    map_name := mapName
    total_lanes := totalLanes
    lane_statistics := groups.map (fun kg => (kg.1, groupStat kg.1 kg.2))
    message :=
      match jsStr laneTypeFilter with
      | some filt =>
          "Found " ++
          toString (((groups.lookup (some filt)).map (·.lanes.length)).getD 0) ++
          " " ++ ((jsOrStr (laneTypeNames filt) (some filt)).getD "") ++ " lanes"
      | none =>
          "Analyzed " ++ toString totalLanes ++ " total lanes across " ++
          toString groups.length ++ " types" }

/-- Result of `analyzeNetwork`: the lanes analysis, or the catch branch when
reading/parsing the GeoJSON file threw. -/
inductive AnalysisResult where
  | lanes (r : LanesAnalysis)
  | failed (error message : String)

/-- `analyzeNetwork` for `analysisType = 'lanes'`: the file content is the
already-parsed feature list, or the thrown error message. -/
def analyzeNetwork (mapName : String) (fileContent : Except String (List Feature))
    (laneTypeFilter : Option String) : AnalysisResult :=
  match fileContent with
  | .ok features => .lanes (analyzeNetworkLanes mapName features laneTypeFilter)
  | .error e => .failed "Failed to analyze network" e

/-- The `analyze_network` tool wrapper: spreads the analysis into a result
whose `status` is always `"success"`. -/
def analyze_network_tool (mapName : String) (fileContent : Except String (List Feature))
    (laneTypeFilter : Option String) : String × AnalysisResult :=
  ("success", analyzeNetwork mapName fileContent laneTypeFilter)

/-! ### GeoJSON session cache (src/lib/geojson-cache, geojson-data route) -/

/-- One cache entry: the backend data and its write timestamp (ms). -/
structure CachedGeoJSON where
  data : BackendData
  timestamp : ℤ

/-- The sweep body run every 60 000 ms: delete every entry strictly older
than 5 minutes. -/
def geojsonCacheSweep (now : ℤ) (cache : List (String × CachedGeoJSON)) :
    List (String × CachedGeoJSON) :=
  cache.filter (fun kv => !(decide (now - kv.2.timestamp > 5 * 60 * 1000)))

/-- `geojsonCache.get(sessionId)` (Map keys are unique; the list is read
front-first). -/
def geojsonCacheGet (cache : List (String × CachedGeoJSON)) (sessionId : String) :
    Option CachedGeoJSON :=
  (cache.find? (fun kv => kv.1 == sessionId)).map (·.2)

/-- Response of the cached-fetch endpoint. -/
inductive GeojsonDataResponse where
  | ok (data : BackendData)
  | badRequest (error : String)
  | notFound (error : String)

/-- The GET handler of the geojson-data route: 400 without a (truthy)
`sessionId`, 404 when the id is not in the cache, otherwise the cached data.
No age check happens at read time. -/
def geojsonDataGET (cache : List (String × CachedGeoJSON))
    (sessionId : Option String) : GeojsonDataResponse :=
  match jsStr sessionId with
  | none => .badRequest "sessionId parameter required"
  | some sid =>
      match geojsonCacheGet cache sid with
      | none => .notFound "Session not found or expired"
      | some cached => .ok cached.data

/-! ## Helper lemmas -/

/-- Every colour in `OBJECT_TYPE_COLORS` is nonempty and differs from the
default gray. -/
theorem OBJECT_TYPE_COLORS_values (ot c : String) (h : OBJECT_TYPE_COLORS ot = some c) :
    c ≠ "" ∧ c ≠ "#6B7280" := by
  unfold OBJECT_TYPE_COLORS at h
  split_ifs at h <;> simp only [Option.some.injEq] at h <;> subst h <;> decide

/-- Every colour in `LANE_COLORS` is nonempty and differs from the default
gray. -/
theorem LANE_COLORS_values (lt c : String) (h : LANE_COLORS lt = some c) :
    c ≠ "" ∧ c ≠ "#6B7280" := by
  unfold LANE_COLORS at h
  split_ifs at h <;> simp only [Option.some.injEq] at h <;> subst h <;> decide

/-- Every colour in `OBJECT_TYPE_COLORS_v2` is nonempty and differs from the
default gray. -/
theorem OBJECT_TYPE_COLORS_v2_values (ot c : String) (h : OBJECT_TYPE_COLORS_v2 ot = some c) :
    c ≠ "" ∧ c ≠ "#6B7280" := by
  unfold OBJECT_TYPE_COLORS_v2 at h
  split_ifs at h <;> simp only [Option.some.injEq] at h <;> subst h <;> decide

/-- `jsStr` of a nonempty string is itself. -/
theorem jsStr_some_of_ne (c : String) (h : c ≠ "") : jsStr (some c) = some c := by
  simp [jsStr, h]

/-- `jsStr` of an absent value is absent. -/
theorem jsStr_none : jsStr none = none := rfl

/-! ## Claims -/

/-- C1 counterexample: the claim states `total_lanes = 3047` for
`cycling_corridor`, but the code returns `3030 + 74 + 43 = 3147`. -/
theorem C1_counterexample :
    (transform_network .cycling_corridor).total_lanes = 3147 ∧
    (transform_network .cycling_corridor).total_lanes ≠ 3047 := by
  decide

/-- C1 (amended): for `transformation_type = "cycling_corridor"` the
`transform_network` tool returns `lane_types` exactly
`motor = 2940, bicycle = 74, green = 43`, `total_lanes = 3030 + 74 + 43 = 3147`,
status `"success"` and map `"cycling_corridor"`. -/
theorem C1_transform_cycling_corridor :
    (transform_network .cycling_corridor).status = "success" ∧
    (transform_network .cycling_corridor).map = "cycling_corridor" ∧
    (transform_network .cycling_corridor).lane_types = ⟨2940, 74, 43⟩ ∧
    (transform_network .cycling_corridor).total_lanes = 3030 + 74 + 43 ∧
    (transform_network .cycling_corridor).total_lanes = 3147 := by
  refine ⟨rfl, rfl, rfl, ?_, rfl⟩
  decide

/-- C9: for every accepted transformation type, `total_lanes` is computed as
`3030 + bicycle + green`, never as `motor + bicycle + green`; in particular
for `all_superblocks` it is `3365` while the component sum is `3137`. -/
theorem C9_total_lanes_formula :
    (∀ t, (transform_network t).total_lanes =
       3030 + (transform_network t).lane_types.bicycle +
         (transform_network t).lane_types.green) ∧
    (∀ t, (transform_network t).total_lanes ≠
       (transform_network t).lane_types.motor +
         (transform_network t).lane_types.bicycle +
         (transform_network t).lane_types.green) ∧
    (transform_network .all_superblocks).total_lanes = 3365 ∧
    (transform_network .all_superblocks).lane_types.motor +
      (transform_network .all_superblocks).lane_types.bicycle +
      (transform_network .all_superblocks).lane_types.green = 3137 := by
  refine ⟨fun t => ?_, fun t => ?_, by decide, by decide⟩ <;> cases t <;> decide

/-- C5: a network-data request whose map name is not in `mapFiles` (and whose
type is not `"streets"`) resolves to the default map's file
`zürich/curbs.geojson` instead of failing; a mapped name resolves to that
name's file. -/
theorem C5_network_data_fallback :
    (∀ dataType mapName, dataType ≠ "streets" → mapFiles mapName = none →
       networkDataFilename dataType mapName = some "zürich/curbs.geojson") ∧
    (∀ dataType mapName f, dataType ≠ "streets" → mapFiles mapName = some f →
       networkDataFilename dataType mapName = some f) := by
  constructor
  · intro d m hd hm
    unfold networkDataFilename
    rw [if_neg hd, hm]
    decide
  · intro d m f hd hm
    unfold networkDataFilename
    rw [if_neg hd, hm]

/-- C5 witness: an unmapped name falls back to the default file, a mapped
name resolves to its own file. -/
theorem C5_network_data_fallback_witness :
    networkDataFilename "lanes" "no_such_map" = some "zürich/curbs.geojson" ∧
    networkDataFilename "lanes" "cycling_corridor" = some "Maps/cycling_corridor.geojson" :=
  ⟨C5_network_data_fallback.1 "lanes" "no_such_map" (by decide) (by decide),
   C5_network_data_fallback.2 "lanes" "cycling_corridor" "Maps/cycling_corridor.geojson"
     (by decide) (by decide)⟩

/-- C6: the rendering layer chooses the draw colour by priority — explicit
feature colour first, then the classification-keyed tables (object type, then
lane type code), then the default gray; table colours are never the default
gray, so in particular a Point feature with no explicit colour but a
classified object type or lane type gets its table colour and never the
hardcoded default (shown for the live `chooseColor` of network-overlay.tsx
and, for Point features, also for the unused variant `chooseColorV2`). -/
theorem C6_color_priority :
    (∀ props c, jsStr props.color = some c → chooseColor props = c) ∧
    (∀ props ot c, jsStr props.color = none → jsStr props.object_type = some ot →
       OBJECT_TYPE_COLORS ot = some c → chooseColor props = c ∧ c ≠ "#6B7280") ∧
    (∀ props lt c, jsStr props.color = none →
       andLookup props.object_type OBJECT_TYPE_COLORS = none →
       jsStr props.lane_type_code = some lt → LANE_COLORS lt = some c →
       chooseColor props = c ∧ c ≠ "#6B7280") ∧
    (∀ props, jsStr props.color = none →
       andLookup props.object_type OBJECT_TYPE_COLORS = none →
       andLookup props.lane_type_code LANE_COLORS = none →
       chooseColor props = "#6B7280") ∧
    (∀ props ot c, jsStr props.color = none → jsStr props.object_type = some ot →
       OBJECT_TYPE_COLORS_v2 ot = some c →
       chooseColorV2 "Point" props = c ∧ c ≠ "#6B7280") ∧
    (∀ props lt c, jsStr props.color = none → props.object_type = none →
       jsStr props.lane_type_code = some lt → LANE_COLORS lt = some c →
       chooseColorV2 "Point" props = c ∧ c ≠ "#6B7280") := by
  refine ⟨?_, ?_, ?_, ?_, ?_, ?_⟩
  · intro props c h
    simp [chooseColor, jsOrStr, h]
  · intro props ot c hc hot htab
    have hval := OBJECT_TYPE_COLORS_values ot c htab
    refine ⟨?_, hval.2⟩
    simp [chooseColor, jsOrStr, andLookup, hc, hot, htab, jsStr_none,
      jsStr_some_of_ne c hval.1]
  · intro props lt c hc hobj hlt htab
    have hval := LANE_COLORS_values lt c htab
    refine ⟨?_, hval.2⟩
    unfold chooseColor
    rw [hobj]
    simp [jsOrStr, andLookup, hc, hlt, htab, jsStr_none, jsStr_some_of_ne c hval.1]
  · intro props hc hobj hlt
    unfold chooseColor
    rw [hobj, hlt]
    simp [jsOrStr, hc, jsStr_none]
  · intro props ot c hc hot htab
    have hval := OBJECT_TYPE_COLORS_v2_values ot c htab
    refine ⟨?_, hval.2⟩
    unfold chooseColorV2
    rw [if_neg (fun h => absurd h.1 (by decide)), if_neg (fun h => absurd h.1 (by decide))]
    simp [jsOrStr, andLookup, hc, hot, htab, jsStr_none, jsStr_some_of_ne c hval.1]
  · intro props lt c hc hobj hlt htab
    have hval := LANE_COLORS_values lt c htab
    refine ⟨?_, hval.2⟩
    unfold chooseColorV2
    rw [if_neg (fun h => absurd h.1 (by decide)), if_neg (fun h => absurd h.1 (by decide))]
    simp [jsOrStr, andLookup, hc, hobj, hlt, htab, jsStr_none, jsStr_some_of_ne c hval.1]

/-- C6 witness: the priority chain at concrete features — explicit colour
wins; an object-type Point gets the table colour; a lane-type Point gets the
table colour (also in the unused variant); all-absent falls to the default
gray. -/
theorem C6_color_priority_witness :
    chooseColor { color := some "#123456", object_type := some "curb" } = "#123456" ∧
    (chooseColor { object_type := some "curb" } = "#FFFFFF" ∧ "#FFFFFF" ≠ "#6B7280") ∧
    (chooseColor { lane_type_code := some "L" } = "#8B1F2E" ∧ "#8B1F2E" ≠ "#6B7280") ∧
    chooseColor {} = "#6B7280" ∧
    (chooseColorV2 "Point" { object_type := some "curb" } = "#FFFFFF" ∧
       "#FFFFFF" ≠ "#6B7280") ∧
    (chooseColorV2 "Point" { lane_type_code := some "L" } = "#8B1F2E" ∧
       "#8B1F2E" ≠ "#6B7280") :=
  ⟨C6_color_priority.1 { color := some "#123456", object_type := some "curb" }
     "#123456" (by decide),
   C6_color_priority.2.1 { object_type := some "curb" } "curb" "#FFFFFF"
     (by decide) (by decide) (by decide),
   C6_color_priority.2.2.1 { lane_type_code := some "L" } "L" "#8B1F2E"
     (by decide) (by decide) (by decide) (by decide),
   C6_color_priority.2.2.2.1 {} (by decide) (by decide) (by decide),
   C6_color_priority.2.2.2.2.1 { object_type := some "curb" } "curb" "#FFFFFF"
     (by decide) (by decide) (by decide),
   C6_color_priority.2.2.2.2.2 { lane_type_code := some "L" } "L" "#8B1F2E"
     (by decide) (by decide) (by decide) (by decide)⟩

/-- C2: the synchronizer applies each `(messageId, toolType)` pair exactly
once — the first processing of an available output appends exactly that
output's applications (Map State, camera, redirect) and records the key; a
pair whose key is already recorded is a no-op; keys are never forgotten; and
reprocessing the same pair is literally idempotent. -/
theorem C2_sync_applied_once :
    ∀ (s : SyncState) (messageId : String) (tp : ToolPart),
      (∀ out, tp.output = some out → tp.state = "output-available" →
         toolOutputId messageId tp ∉ s.processed →
         (processToolPart messageId s tp).effects = s.effects ++ outputEffects out ∧
         toolOutputId messageId tp ∈ (processToolPart messageId s tp).processed) ∧
      (toolOutputId messageId tp ∈ s.processed → processToolPart messageId s tp = s) ∧
      (∀ (messageId' : String) (tp' : ToolPart) (k : String), k ∈ s.processed →
         k ∈ (processToolPart messageId' s tp').processed) ∧
      processToolPart messageId (processToolPart messageId s tp) tp =
        processToolPart messageId s tp := by
  intro s messageId tp
  refine ⟨?_, ?_, ?_, ?_⟩
  · intro out hout hstate hmem
    simp only [processToolPart, hout]
    rw [if_pos ⟨hstate, hmem⟩]
    exact ⟨rfl, List.mem_cons_self _ _⟩
  · intro hmem
    cases hout : tp.output with
    | none => simp only [processToolPart, hout]
    | some out =>
        simp only [processToolPart, hout]
        rw [if_neg (fun h => h.2 hmem)]
  · intro messageId' tp' k hk
    cases hout : tp'.output with
    | none => simpa only [processToolPart, hout] using hk
    | some out =>
        simp only [processToolPart, hout]
        by_cases hcond : tp'.state = "output-available" ∧
          toolOutputId messageId' tp' ∉ s.processed
        · rw [if_pos hcond]
          exact List.mem_cons_of_mem _ hk
        · rw [if_neg hcond]
          exact hk
  · cases hout : tp.output with
    | none => simp only [processToolPart, hout]
    | some out =>
        by_cases hcond : tp.state = "output-available" ∧
          toolOutputId messageId tp ∉ s.processed
        · have h1 : processToolPart messageId s tp =
            { processed := toolOutputId messageId tp :: s.processed
              effects := s.effects ++ outputEffects out } := by
            simp only [processToolPart, hout]
            rw [if_pos hcond]
          rw [h1]
          simp only [processToolPart, hout]
          rw [if_neg (fun h => h.2 (List.mem_cons_self _ _))]
        · have h1 : processToolPart messageId s tp = s := by
            simp only [processToolPart, hout]
            rw [if_neg hcond]
          rw [h1]
          exact h1

/-- C2 witness: a concrete available `transform_network` output on a fresh
state is applied once (its map change is appended and its key recorded). -/
theorem C2_sync_applied_once_witness :
    (processToolPart "m1" ⟨[], []⟩
        ⟨"tool-transform_network", "output-available",
         some { action := "transform", map := some "cycling_corridor" }⟩).effects =
      [] ++ outputEffects { action := "transform", map := some "cycling_corridor" } ∧
    toolOutputId "m1"
        ⟨"tool-transform_network", "output-available",
         some { action := "transform", map := some "cycling_corridor" }⟩ ∈
      (processToolPart "m1" ⟨[], []⟩
        ⟨"tool-transform_network", "output-available",
         some { action := "transform", map := some "cycling_corridor" }⟩).processed :=
  (C2_sync_applied_once ⟨[], []⟩ "m1"
      ⟨"tool-transform_network", "output-available",
       some { action := "transform", map := some "cycling_corridor" }⟩).1
    { action := "transform", map := some "cycling_corridor" }
    rfl rfl (by decide)

/-- C10: when one streamed message contains two completed invocations of the
same tool type, the synchronizer applies only the first one's output — the
seen-set key is the message id and tool type alone, so the second invocation
is dropped. -/
theorem C10_second_same_type_dropped :
    ∀ (s : SyncState) (m : ChatMessage) (tp1 tp2 : ToolPart) (o1 o2 : ToolOutput),
      toolPartsOf m = [tp1, tp2] →
      tp1.ttype = tp2.ttype →
      tp1.state = "output-available" →
      tp2.state = "output-available" →
      tp1.output = some o1 →
      tp2.output = some o2 →
      toolOutputId m.id tp1 ∉ s.processed →
      (processMessage s m).effects = s.effects ++ outputEffects o1 := by
  intro s m tp1 tp2 o1 o2 hparts httype hs1 hs2 ho1 ho2 hmem
  unfold processMessage
  rw [hparts]
  have hkey : toolOutputId m.id tp2 = toolOutputId m.id tp1 := by
    unfold toolOutputId
    rw [httype]
  have h1 : processToolPart m.id s tp1 =
      { processed := toolOutputId m.id tp1 :: s.processed
        effects := s.effects ++ outputEffects o1 } := by
    simp only [processToolPart, ho1]
    rw [if_pos ⟨hs1, hmem⟩]
  show (processToolPart m.id (processToolPart m.id s tp1) tp2).effects =
    s.effects ++ outputEffects o1
  rw [h1]
  simp only [processToolPart, ho2]
  rw [if_neg (fun h => h.2 (by rw [hkey]; exact List.mem_cons_self _ _))]

/-- C10 witness: a message carrying two completed `transform_network`
invocations applies only the first one's map change. -/
theorem C10_second_same_type_dropped_witness :
    (processMessage ⟨[], []⟩
        ⟨"m1",
         [.tool ⟨"tool-transform_network", "output-available",
            some { action := "transform", map := some "cycling_corridor" }⟩,
          .tool ⟨"tool-transform_network", "output-available",
            some { action := "transform", map := some "all_superblocks" }⟩]⟩).effects =
      [] ++ outputEffects { action := "transform", map := some "cycling_corridor" } :=
  C10_second_same_type_dropped ⟨[], []⟩
    ⟨"m1",
     [.tool ⟨"tool-transform_network", "output-available",
        some { action := "transform", map := some "cycling_corridor" }⟩,
      .tool ⟨"tool-transform_network", "output-available",
        some { action := "transform", map := some "all_superblocks" }⟩]⟩
    ⟨"tool-transform_network", "output-available",
       some { action := "transform", map := some "cycling_corridor" }⟩
    ⟨"tool-transform_network", "output-available",
       some { action := "transform", map := some "all_superblocks" }⟩
    { action := "transform", map := some "cycling_corridor" }
    { action := "transform", map := some "all_superblocks" }
    (by decide) rfl rfl rfl rfl rfl (by decide)

/-- C3: a `design_parking` invocation whose `parking_spot_width` lies outside
[2.0, 4.0] or whose `dooring_margin` lies outside [0.5, 2.0] is rejected by
the input schema before `execute` runs, so no request reaches the design
backend; conversely, whenever a backend request is sent the parameters were
in range (or absent). -/
theorem C3_design_parking_validation :
    ∀ (backendUrl : String) (backend : DesignRequest → BackendResponse)
      (w m : Option ℚ),
      (validDesignParkingInput w m = false →
         invokeDesignParking backendUrl backend w m = (none, [])) ∧
      ((invokeDesignParking backendUrl backend w m).2 ≠ [] →
         validDesignParkingInput w m = true) ∧
      (∀ x, w = some x → x < 2 ∨ 4 < x →
         invokeDesignParking backendUrl backend w m = (none, [])) ∧
      (∀ x, m = some x → x < 1/2 ∨ 2 < x →
         invokeDesignParking backendUrl backend w m = (none, [])) := by
  intro backendUrl backend w m
  have hinvalid : validDesignParkingInput w m = false →
      invokeDesignParking backendUrl backend w m = (none, []) := by
    intro h
    unfold invokeDesignParking
    rw [h]
    rfl
  refine ⟨hinvalid, ?_, ?_, ?_⟩
  · intro hne
    cases hv : validDesignParkingInput w m with
    | true => rfl
    | false => exact absurd (by rw [hinvalid hv]) hne
  · intro x hx hout
    apply hinvalid
    have hno : ¬ (2 ≤ x ∧ x ≤ 4) := by
      rcases hout with h | h
      · exact fun hc => absurd hc.1 (not_le.mpr h)
      · exact fun hc => absurd hc.2 (not_le.mpr h)
    simp only [validDesignParkingInput, hx, decide_eq_false hno]
    exact Bool.false_and _
  · intro x hx hout
    apply hinvalid
    have hno : ¬ (1/2 ≤ x ∧ x ≤ 2) := by
      rcases hout with h | h
      · exact fun hc => absurd hc.1 (not_le.mpr h)
      · exact fun hc => absurd hc.2 (not_le.mpr h)
    simp only [validDesignParkingInput, hx, decide_eq_false hno]
    exact Bool.and_false _

/-- C3 witness: a width of 5 m is rejected with no backend request; a margin
of 0.1 m likewise; and an in-range invocation does send a request, so the
converse direction is not vacuous. -/
theorem C3_design_parking_validation_witness :
    invokeDesignParking "http://localhost:8000" (fun _ => .ok ⟨none, none, none⟩)
      (some 5) none = (none, []) ∧
    invokeDesignParking "http://localhost:8000" (fun _ => .ok ⟨none, none, none⟩)
      none (some (1/10)) = (none, []) ∧
    validDesignParkingInput (some (5/2)) (some 1) = true :=
  ⟨(C3_design_parking_validation "http://localhost:8000"
      (fun _ => .ok ⟨none, none, none⟩) (some 5) none).2.2.1 5 rfl
      (Or.inr (by norm_num)),
   (C3_design_parking_validation "http://localhost:8000"
      (fun _ => .ok ⟨none, none, none⟩) none (some (1/10))).2.2.2 (1/10) rfl
      (Or.inl (by norm_num)),
   (C3_design_parking_validation "http://localhost:8000"
      (fun _ => .ok ⟨none, none, none⟩) (some (5/2)) (some 1)).2.1
      (by norm_num [invokeDesignParking, validDesignParkingInput,
        executeDesignParking, designParkingRules, jsNum])⟩

/-- C4: when the backend call of `design_parking` fails — a non-2xx response
or a thrown network error — the tool returns a result with status `"error"`
and the human-readable catch message; the catch branch means no exception
escapes `execute` (the function is total on both failure shapes), and in
every execution exactly one request is sent, so a failed request is never
retried. -/
theorem C4_design_parking_backend_failure :
    ∀ (backendUrl : String) (backend : DesignRequest → BackendResponse)
      (w m : Option ℚ),
      (∀ status, backend ⟨designParkingRules w m⟩ = .httpError status →
         (executeDesignParking backendUrl backend w m).1.status = "error" ∧
         (executeDesignParking backendUrl backend w m).1.message =
           "Failed to connect to goNEON backend: " ++
             ("Backend API returned " ++ toString status) ++
             ". Make sure the backend server is running on " ++ backendUrl) ∧
      (∀ emsg, backend ⟨designParkingRules w m⟩ = .networkError emsg →
         (executeDesignParking backendUrl backend w m).1.status = "error" ∧
         (executeDesignParking backendUrl backend w m).1.message =
           "Failed to connect to goNEON backend: " ++ emsg ++
             ". Make sure the backend server is running on " ++ backendUrl) ∧
      (executeDesignParking backendUrl backend w m).2 =
        [⟨designParkingRules w m⟩] := by
  intro backendUrl backend w m
  refine ⟨?_, ?_, ?_⟩
  · intro status h
    simp only [executeDesignParking, h, designParkingError]
    exact ⟨trivial, trivial⟩
  · intro emsg h
    simp only [executeDesignParking, h, designParkingError]
    exact ⟨trivial, trivial⟩
  · cases h : backend ⟨designParkingRules w m⟩ <;>
      simp only [executeDesignParking, h]

/-- C4 witness: a 500 response and a thrown network error both yield an
error-status result with the catch message, after exactly one request. -/
theorem C4_design_parking_backend_failure_witness :
    ((executeDesignParking "http://localhost:8000" (fun _ => .httpError 500)
        (some (5/2)) none).1.status = "error" ∧
     (executeDesignParking "http://localhost:8000" (fun _ => .httpError 500)
        (some (5/2)) none).1.message =
       "Failed to connect to goNEON backend: " ++
         ("Backend API returned " ++ toString 500) ++
         ". Make sure the backend server is running on " ++ "http://localhost:8000") ∧
    ((executeDesignParking "http://localhost:8000"
        (fun _ => .networkError "fetch failed") (some (5/2)) none).1.status =
       "error" ∧
     (executeDesignParking "http://localhost:8000"
        (fun _ => .networkError "fetch failed") (some (5/2)) none).1.message =
       "Failed to connect to goNEON backend: " ++ "fetch failed" ++
         ". Make sure the backend server is running on " ++ "http://localhost:8000") ∧
    (executeDesignParking "http://localhost:8000" (fun _ => .httpError 500)
        (some (5/2)) none).2 =
      [⟨designParkingRules (some (5/2)) none⟩] :=
  ⟨(C4_design_parking_backend_failure "http://localhost:8000"
      (fun _ => .httpError 500) (some (5/2)) none).1 500 rfl,
   (C4_design_parking_backend_failure "http://localhost:8000"
      (fun _ => .networkError "fetch failed") (some (5/2)) none).2.1
      "fetch failed" rfl,
   (C4_design_parking_backend_failure "http://localhost:8000"
      (fun _ => .httpError 500) (some (5/2)) none).2.2⟩

/-- A feature whose lane type differs from a nonempty filter is skipped by
the analysis fold body. -/
theorem analyzeStep_skip (filt : String) (g : List (Option String × GroupAcc))
    (f : Feature) (hf : filt ≠ "")
    (hne : f.properties.lane_type_code ≠ some filt) :
    analyzeStep (some filt) g f = g := by
  simp only [analyzeStep, jsStr_some_of_ne filt hf]
  rw [if_pos ⟨by simp, hne⟩]

/-- A fold over features none of which match a nonempty filter leaves the
group accumulator unchanged. -/
theorem foldl_analyzeStep_skip (filt : String) (features : List Feature)
    (g : List (Option String × GroupAcc)) (hf : filt ≠ "")
    (hall : ∀ f ∈ features, f.properties.lane_type_code ≠ some filt) :
    features.foldl (analyzeStep (some filt)) g = g := by
  induction features generalizing g with
  | nil => rfl
  | cons f fs ih =>
      rw [List.foldl_cons,
        analyzeStep_skip filt g f hf (hall f (List.mem_cons_self f fs))]
      exact ih g (fun x hx => hall x (List.mem_cons_of_mem _ hx))

/-- C8: a lane analysis with filter `"L"` over a collection containing no
bicycle lanes returns a successful result — status `"success"`, total count
0, empty statistics (hence no sample locations) and the message
`"Found 0 Bicycle lanes"` — not an error result. -/
theorem C8_analyze_zero_bicycle_lanes :
    ∀ (mapName : String) (features : List Feature),
      (∀ f ∈ features, f.properties.lane_type_code ≠ some "L") →
      analyze_network_tool mapName (.ok features) (some "L") =
        ("success", .lanes
          { analysis_type := "lanes"
            map_name := mapName
            total_lanes := 0
            lane_statistics := []
            message := "Found 0 Bicycle lanes" }) := by
  intro mapName features hall
  simp only [analyze_network_tool, analyzeNetwork, analyzeNetworkLanes,
    foldl_analyzeStep_skip "L" features [] (by decide) hall]
  rfl

/-- C8 witness: a collection with a single motor lane analysed with filter
`"L"` reports zero bicycle lanes, empty statistics and no error. -/
theorem C8_analyze_zero_bicycle_lanes_witness :
    analyze_network_tool "initial_network"
        (.ok [⟨{ lane_type_code := some "M" },
              ⟨"LineString", .arr [.arr [.num 1, .num 2]]⟩⟩])
        (some "L") =
      ("success", .lanes
        { analysis_type := "lanes"
          map_name := "initial_network"
          total_lanes := 0
          lane_statistics := []
          message := "Found 0 Bicycle lanes" }) :=
  C8_analyze_zero_bicycle_lanes "initial_network"
    [⟨{ lane_type_code := some "M" },
      ⟨"LineString", .arr [.arr [.num 1, .num 2]]⟩⟩]
    (by decide)

/-- C7: an entry strictly older than 5 minutes is removed by any sweep run
at or after that moment, making it unreachable through the cached-fetch
endpoint (404); and the endpoint performs no age check of its own, so before
the sweep an already-expired entry is still served (shown at age 301 s,
within the up-to-60 s lag between expiry and the once-per-minute sweep). -/
theorem C7_cache_expiry :
    (∀ (cache : List (String × CachedGeoJSON)) (sid : String)
       (tExpire tSweep : ℤ),
       sid ≠ "" →
       tExpire ≤ tSweep →
       (∀ kv ∈ cache, kv.1 = sid → tExpire - kv.2.timestamp > 5 * 60 * 1000) →
       geojsonDataGET (geojsonCacheSweep tSweep cache) (some sid) =
         .notFound "Session not found or expired") ∧
    ((301000 : ℤ) - 0 > 5 * 60 * 1000 ∧
     geojsonDataGET [("s", ⟨⟨none, none, none⟩, 0⟩)] (some "s") =
       .ok ⟨none, none, none⟩) := by
  constructor
  · intro cache sid tExpire tSweep hsid hle hall
    have hfind : (cache.filter
        (fun kv => !(decide (tSweep - kv.2.timestamp > 5 * 60 * 1000)))).find?
          (fun kv => kv.1 == sid) = none := by
      apply List.find?_eq_none.mpr
      intro kv hkv hbeq
      have hmem := (List.mem_filter.mp hkv).1
      have hkeep := (List.mem_filter.mp hkv).2
      have heq : kv.1 = sid := by simpa using hbeq
      have hexp : tExpire - kv.2.timestamp > 5 * 60 * 1000 := hall kv hmem heq
      have hexp2 : tSweep - kv.2.timestamp > 5 * 60 * 1000 := by linarith
      simp at hkeep
      omega
    have hget : geojsonCacheGet (geojsonCacheSweep tSweep cache) sid = none := by
      unfold geojsonCacheGet geojsonCacheSweep
      rw [hfind]
      rfl
    simp only [geojsonDataGET, jsStr_some_of_ne sid hsid, hget]
  · exact ⟨by decide, rfl⟩

/-- C7 witness: a single entry written at time 0 is gone after a sweep at
time 301 000 ms (strictly more than 5 minutes later). -/
theorem C7_cache_expiry_witness :
    geojsonDataGET (geojsonCacheSweep 301000 [("s", ⟨⟨none, none, none⟩, 0⟩)])
        (some "s") =
      .notFound "Session not found or expired" :=
  C7_cache_expiry.1 [("s", ⟨⟨none, none, none⟩, 0⟩)] "s" 301000 301000
    (by decide) le_rfl (by decide)

end Goneon
